import Mathlib

/-!
Shallow embedding of `src/scripts/fpga_controller.py` and of the statistics
functions used by `src/scripts/performance_profiler.py`.

Numeric values (Python floats) are modelled as exact rationals `ℚ`.
Python's nondeterminism is made explicit: `time.time()` timestamps and the
three `random.uniform` draws of `read_metrics` are passed in as parameters;
the bounds of each `uniform(a, b)` call become hypotheses where a claim
needs them.  Fallible Python operations (raising exceptions) return
`Except PyError`.  A Python numeric `sorted(...)` is embedded as insertion
sort: over a linear order the ascending sorted list of values is unique, so
the choice of sorting algorithm is observationally irrelevant.
-/

/-- Python exceptions that the embedded code can raise:
`RuntimeError` (with its message), `ZeroDivisionError`,
`statistics.StatisticsError` (with its message), and `ValueError`
(raised by `max`/`min` on an empty sequence). -/
inductive PyError where
  | runtimeError (msg : String)
  | zeroDivision
  | statisticsError (msg : String)
  | valueError (msg : String)
  deriving DecidableEq

/-- The `ComponentStatus` enum of `fpga_controller.py` (lines 13–16). -/
inductive ComponentStatus where
  | active
  | idle
  | error
  deriving DecidableEq

/-- The `FPGAConfig` dataclass of `fpga_controller.py` (lines 19–25),
with its default field values. -/
structure FPGAConfig where
  window_size : Int := 1024
  active_cores : Int := 4
  data_rate : Int := 1000
  filter_threshold : Int := 100
  deriving DecidableEq

/-- The `PerformanceMetrics` dataclass of `fpga_controller.py`
(lines 28–37). -/
structure PerformanceMetrics where
  timestamp : ℚ
  latency_us : ℚ
  throughput_mbps : ℚ
  jitter_us : ℚ
  pcie_status : ComponentStatus
  dma_status : ComponentStatus
  compute_status : ComponentStatus
  deriving DecidableEq

/-- The mutable state of an `FPGAController` instance
(`fpga_controller.py` lines 46–49). -/
structure FPGAController where
  config : FPGAConfig
  is_connected : Bool
  metrics_history : List PerformanceMetrics
  deriving DecidableEq

/-- `FPGAController.__init__` (lines 46–49): default config, not
connected, empty metrics history. -/
def FPGAController.init : FPGAController :=
  { config := {}, is_connected := false, metrics_history := [] }

/-- `FPGAController.connect` (lines 51–67): sets `is_connected = True`
and returns `True`.  The prints and sleeps have no effect on state. -/
def FPGAController.connect (ctrl : FPGAController) : FPGAController × Bool :=
  ({ ctrl with is_connected := true }, true)

/-- `FPGAController.disconnect` (lines 69–73): sets `is_connected = False`.
Nothing else is touched: the metrics history and the config are kept. -/
def FPGAController.disconnect (ctrl : FPGAController) : FPGAController :=
  { ctrl with is_connected := false }

/-- One `setattr(self.config, key, value)` step of `update_config`
(lines 80–83), guarded by `hasattr`: a recognized field name is set to the
given value with no validation; any other key is skipped. -/
def setField (c : FPGAConfig) (key : String) (v : Int) : FPGAConfig :=
  if key = "window_size" then { c with window_size := v }
  else if key = "active_cores" then { c with active_cores := v }
  else if key = "data_rate" then { c with data_rate := v }
  else if key = "filter_threshold" then { c with filter_threshold := v }
  else c

/-- `FPGAController.update_config` (lines 75–86): iterates over the
keyword arguments in order, applying `setField` for each, and always
returns `True`.  There is no connection check and no domain validation. -/
def FPGAController.update_config (ctrl : FPGAController)
    (kwargs : List (String × Int)) : FPGAController × Bool :=
  ({ ctrl with config := kwargs.foldl (fun c kv => setField c kv.1 kv.2) ctrl.config },
   true)

/-- `FPGAController.read_metrics` (lines 88–111).  `ts` is the value of
`time.time()`; `r1`, `r2`, `r3` are the draws of `random.uniform(-5, 15)`,
`random.uniform(-50, 50)` and `random.uniform(0, 5)` respectively.  Note
there is no connection check: the metric is synthesized and appended to
`metrics_history` in every state. -/
def FPGAController.read_metrics (ctrl : FPGAController)
    (ts r1 r2 r3 : ℚ) : FPGAController × PerformanceMetrics :=
  let base_latency : ℚ := 50 + (8 - (ctrl.config.active_cores : ℚ)) * 10
  let latency : ℚ := base_latency + r1
  let throughput : ℚ := (ctrl.config.active_cores : ℚ) * 250 + r2
  let jitter : ℚ := r3
  let metrics : PerformanceMetrics :=
    { timestamp := ts, latency_us := latency, throughput_mbps := throughput,
      jitter_us := jitter, pcie_status := ComponentStatus.active,
      dma_status := ComponentStatus.active,
      compute_status := ComponentStatus.active }
  ({ ctrl with metrics_history := ctrl.metrics_history ++ [metrics] }, metrics)

/-- `FPGAController.stream_data` (lines 113–141).  Raises
`RuntimeError("FPGA not connected")` when not connected; otherwise the
sleeps elapse and the input bytes are returned unchanged (`return data`).
The controller state is not modified and no metric is appended. -/
def FPGAController.stream_data (ctrl : FPGAController) (data : List Nat) :
    Except PyError (FPGAController × List Nat) :=
  if ctrl.is_connected then Except.ok (ctrl, data)
  else Except.error (PyError.runtimeError "FPGA not connected")

/-- Python `xs[-n:]`: the suffix of the last `min n (length xs)` elements. -/
def takeLast {α : Type} (n : Nat) (xs : List α) : List α :=
  xs.drop (xs.length - n)

/-- Python `sorted` on a list of numbers: ascending order. -/
def pysorted (xs : List ℚ) : List ℚ :=
  List.insertionSort (fun a b => a ≤ b) xs

/-- Python `int(...)` on a float value: truncation toward zero. -/
def pyInt (q : ℚ) : ℤ :=
  q.num.tdiv q.den

/-- Python `/` on numbers: raises `ZeroDivisionError` on a zero divisor,
otherwise exact division. -/
def pydiv (a b : ℚ) : Except PyError ℚ :=
  if b = 0 then Except.error PyError.zeroDivision else Except.ok (a / b)

/-- Python `max` on a list: `ValueError` on an empty sequence, otherwise
the greatest element. -/
def pymax (xs : List ℚ) : Except PyError ℚ :=
  match xs with
  | [] => Except.error (PyError.valueError "max() arg is an empty sequence")
  | x :: rest => Except.ok (rest.foldl max x)

/-- Python `min` on a list: `ValueError` on an empty sequence, otherwise
the least element. -/
def pymin (xs : List ℚ) : Except PyError ℚ :=
  match xs with
  | [] => Except.error (PyError.valueError "min() arg is an empty sequence")
  | x :: rest => Except.ok (rest.foldl min x)

/-- Python `statistics.mean`: `StatisticsError` on empty data, otherwise
the arithmetic mean. -/
def pymean (xs : List ℚ) : Except PyError ℚ :=
  if xs.length = 0 then
    Except.error (PyError.statisticsError "mean requires at least one data point")
  else Except.ok (xs.sum / (xs.length : ℚ))

/-- Python `statistics.median`: `StatisticsError` on empty data; for odd
length the middle element of the sorted data, for even length the average
of the two middle elements. -/
def pymedian (xs : List ℚ) : Except PyError ℚ :=
  if xs.length = 0 then
    Except.error (PyError.statisticsError "no median for empty data")
  else
    let s := pysorted xs
    let n := xs.length
    if n % 2 = 1 then Except.ok (s.getD (n / 2) 0)
    else Except.ok ((s.getD (n / 2 - 1) 0 + s.getD (n / 2) 0) / 2)

/-- Python `statistics.stdev` guarded variance: `StatisticsError` when
fewer than two data points; otherwise the sample variance with the `n − 1`
denominator.  The source takes the square root of exactly this value; the
square root (irrational in general) is left unapplied here, which affects
neither the error behaviour nor which inputs are accepted. -/
def pystdevSq (xs : List ℚ) : Except PyError ℚ :=
  if xs.length < 2 then
    Except.error (PyError.statisticsError "stdev requires at least two data points")
  else
    Except.ok (((xs.map (fun x => (x - xs.sum / (xs.length : ℚ)) ^ 2)).sum) /
      ((xs.length : ℚ) - 1))

/-- The expression `sorted(xs)[int(len(xs) * frac)]` used for the `p99`
statistic in `fpga_controller.py` line 155 and for `p95`/`p99` in
`performance_profiler.py` lines 49–50 (`frac` is `0.95` or `0.99`).  The
index is always in range in those uses, so total `getD` indexing is
faithful there. -/
def nearestRank (xs : List ℚ) (frac : ℚ) : ℚ :=
  (pysorted xs).getD (pyInt ((xs.length : ℚ) * frac)).toNat 0

/-- Modelled from the spec: `percentile(p)` for p in (0,100) — "sort
ascending, index = floor(p/100 × length), clamp to [0, length−1]"
(nearest-rank, no interpolation).  This general function does not exist in
the source, which only instantiates the pattern at p95/p99; it is stated
here to be compared with `nearestRank`. -/
def percentileSpec (p : ℚ) (xs : List ℚ) : ℚ :=
  (pysorted xs).getD
    (min (max ⌊p / 100 * (xs.length : ℚ)⌋ 0) ((xs.length : ℤ) - 1)).toNat 0

/-- The value record built by `FPGAController.get_statistics`
(lines 151–158). -/
structure Stats where
  avg_latency_us : ℚ
  max_latency_us : ℚ
  min_latency_us : ℚ
  p99_latency_us : ℚ
  max_jitter_us : ℚ
  speedup_vs_cpu : ℚ
  deriving DecidableEq

/-- `FPGAController.get_statistics` (lines 143–158): returns an empty
result (`{}` in Python, `none` here) when the metrics history is empty;
otherwise computes the statistics over the last 100 entries, in the
evaluation order of the Python dict literal.  The final entry divides the
fixed 150 µs CPU baseline by the mean latency and is the only fallible
step on a nonempty history (`ZeroDivisionError` when the mean is zero). -/
def FPGAController.get_statistics (ctrl : FPGAController) :
    Except PyError (Option Stats) :=
  if ctrl.metrics_history = [] then Except.ok none
  else do
    let recent := takeLast 100 ctrl.metrics_history
    let latencies := recent.map (fun m => m.latency_us)
    let jitters := recent.map (fun m => m.jitter_us)
    let avg ← pydiv latencies.sum (latencies.length : ℚ)
    let mx ← pymax latencies
    let mn ← pymin latencies
    let p99 := nearestRank latencies (99 / 100)
    let mxj ← pymax jitters
    let spd ← pydiv 150 avg
    return some { avg_latency_us := avg, max_latency_us := mx,
                  min_latency_us := mn, p99_latency_us := p99,
                  max_jitter_us := mxj, speedup_vs_cpu := spd }

/-- Modelled from the spec: `speedup(mean_latency, baseline)` =
"baseline / mean_latency; fails with `DivisionByZeroError` if
mean_latency is zero".  The source has no standalone function: its one
instance is the `150 / (sum(latencies) / len(latencies))` entry of
`get_statistics`, i.e. `speedup mean 150`. -/
def speedup (mean_latency baseline : ℚ) : Except PyError ℚ :=
  pydiv baseline mean_latency

/-- Iterated `read_metrics` (with timestamp and draws fixed to 0), used to
observe the growth of `metrics_history` over a sequence of operations. -/
def readMetricsN (ctrl : FPGAController) : Nat → FPGAController
  | 0 => ctrl
  | n + 1 => ((readMetricsN ctrl n).read_metrics 0 0 0 0).1

/-- The mean latency `sum(latencies) / len(latencies)` over the last 100
history entries, as computed inside `get_statistics`. -/
def meanLatency (ctrl : FPGAController) : ℚ :=
  (((takeLast 100 ctrl.metrics_history).map (fun m => m.latency_us)).sum) /
    ((((takeLast 100 ctrl.metrics_history).map (fun m => m.latency_us)).length : ℚ))

/-! ### Helper lemmas -/

/-- Appending one metric grows the history length by one. -/
theorem read_metrics_length (ctrl : FPGAController) (ts r1 r2 r3 : ℚ) :
    (ctrl.read_metrics ts r1 r2 r3).1.metrics_history.length =
      ctrl.metrics_history.length + 1 := by
  simp [FPGAController.read_metrics]

/-- Iterating `read_metrics` `n` times grows the history length by `n`. -/
theorem readMetricsN_length (ctrl : FPGAController) (n : Nat) :
    (readMetricsN ctrl n).metrics_history.length =
      ctrl.metrics_history.length + n := by
  induction n with
  | zero => rfl
  | succ k ih =>
      simp only [readMetricsN, read_metrics_length, ih]
      omega

/-- `pyInt` (Python `int(...)` truncation) agrees with the floor on
nonnegative rationals. -/
theorem pyInt_eq_floor (q : ℚ) (hq : 0 ≤ q) : pyInt q = ⌊q⌋ := by
  rw [Rat.floor_def]
  exact Int.tdiv_eq_ediv (Rat.num_nonneg.mpr hq) (Int.ofNat_nonneg q.den)

/-! ### C1 -/

/-- C1 (counterexample): in the initial, not-connected state,
`read_metrics` does not fail — it appends a sample to the metrics
history, refuting the claim that both `stream()` and `read_metrics()`
fail with `NotConnectedError` and leave the history unchanged when the
session is not Connected. -/
theorem C1_counterexample :
    FPGAController.init.is_connected = false ∧
    (FPGAController.init.read_metrics 0 0 0 0).1.metrics_history.length =
      FPGAController.init.metrics_history.length + 1 :=
  ⟨rfl, rfl⟩

/-- C1 (amended): when the session is not connected, `stream_data` fails
with `RuntimeError("FPGA not connected")` (the realization of
`NotConnectedError`) and, since it never mutates the controller, appends
no sample; `read_metrics`, however, performs no connection check: it
succeeds and appends exactly one sample in every state. -/
theorem C1_not_connected (ctrl : FPGAController) (data : List Nat)
    (ts r1 r2 r3 : ℚ) (h : ctrl.is_connected = false) :
    ctrl.stream_data data =
      Except.error (PyError.runtimeError "FPGA not connected") ∧
    (ctrl.read_metrics ts r1 r2 r3).1.metrics_history.length =
      ctrl.metrics_history.length + 1 :=
  ⟨by simp [FPGAController.stream_data, h], read_metrics_length ctrl ts r1 r2 r3⟩

/-- C1 (witness): the amended statement evaluated in the initial state. -/
theorem C1_not_connected_witness :
    FPGAController.init.is_connected = false ∧
    FPGAController.init.stream_data [1, 2, 3] =
      Except.error (PyError.runtimeError "FPGA not connected") :=
  ⟨rfl, (C1_not_connected FPGAController.init [1, 2, 3] 0 0 0 0 rfl).1⟩

/-! ### C2 -/

/-- C2 (counterexample): on a connected controller, `stream_data`
succeeds but the metrics history of the resulting state has length 0,
not 1 — no `Sample` is appended, refuting the claim that each `stream`
call appends exactly one sample. -/
theorem C2_counterexample :
    ((FPGAController.init.connect.1).stream_data [1, 2, 3]).map
        (fun r => r.1.metrics_history.length) = Except.ok 0 ∧
    ¬ ((FPGAController.init.connect.1).stream_data [1, 2, 3]).map
        (fun r => r.1.metrics_history.length) =
      Except.ok ((FPGAController.init.connect.1).metrics_history.length + 1) := by
  constructor
  · rfl
  · simp [FPGAController.stream_data, FPGAController.connect, FPGAController.init,
      Except.map]

/-- C2 (amended): on a connected session, `stream_data` returns a payload
of the same size as the input (in fact the very same bytes) and leaves the
metrics history unchanged — it appends no sample; samples are only ever
appended by `read_metrics`. -/
theorem C2_stream_no_append (ctrl : FPGAController) (data : List Nat)
    (h : ctrl.is_connected = true) :
    (ctrl.stream_data data).map (fun r => r.2.length) =
      Except.ok data.length ∧
    (ctrl.stream_data data).map (fun r => r.1.metrics_history) =
      Except.ok ctrl.metrics_history := by
  simp [FPGAController.stream_data, h, Except.map]

/-- C2 (witness): the amended statement evaluated on a connected
controller with a 3-byte payload. -/
theorem C2_stream_no_append_witness :
    (FPGAController.init.connect.1).is_connected = true ∧
    ((FPGAController.init.connect.1).stream_data [1, 2, 3]).map
        (fun r => r.2.length) = Except.ok 3 :=
  ⟨rfl, (C2_stream_no_append (FPGAController.init.connect.1) [1, 2, 3] rfl).1⟩

/-! ### C3 -/

/-- C3 (counterexample): connect, set `active_cores := 6`, take one
metric, then disconnect: afterwards the metrics history still has one
entry and the configuration still differs from the defaults, refuting
the claim that `disconnect` clears the window and resets the config. -/
theorem C3_counterexample :
    ((((FPGAController.init.connect.1).update_config
        [("active_cores", 6)]).1.read_metrics 0 0 0 0).1.disconnect).metrics_history.length
      = 1 ∧
    ((((FPGAController.init.connect.1).update_config
        [("active_cores", 6)]).1.read_metrics 0 0 0 0).1.disconnect).config ≠
      ({} : FPGAConfig) := by
  refine ⟨rfl, ?_⟩
  intro hcontra
  exact absurd (congrArg FPGAConfig.active_cores hcontra) (by decide)

/-- C3 (amended): after `disconnect()` the session is Disconnected, but
nothing else changes: the metrics history keeps all its samples and the
configuration keeps its current (possibly non-default) values. -/
theorem C3_disconnect_state (ctrl : FPGAController) :
    ctrl.disconnect.is_connected = false ∧
    ctrl.disconnect.metrics_history = ctrl.metrics_history ∧
    ctrl.disconnect.config = ctrl.config :=
  ⟨rfl, rfl, rfl⟩

/-! ### C5 -/

/-- C5 (counterexample): updating with the out-of-domain value
`active_cores = -1` succeeds (returns `True`, no `InvalidConfigError`)
and mutates the configuration away from its previous value `4`,
refuting both the validation and the no-partial-mutation parts of the
claim. -/
theorem C5_counterexample :
    ((FPGAController.init.connect.1).update_config [("active_cores", -1)]).2
      = true ∧
    ((FPGAController.init.connect.1).update_config
        [("active_cores", -1)]).1.config.active_cores = -1 ∧
    (FPGAController.init.connect.1).config.active_cores = 4 :=
  ⟨rfl, rfl, rfl⟩

/-- C5 (amended): `update_config` performs no domain validation at all:
any value supplied for a recognized field (here `active_cores`) is
applied verbatim, a key that is not a config attribute is skipped, and
the call always returns `True`. -/
theorem C5_no_validation (ctrl : FPGAController) (v : Int) :
    ((ctrl.update_config [("active_cores", v)]).1.config.active_cores = v) ∧
    ((ctrl.update_config [("active_cores", v)]).2 = true) ∧
    ((ctrl.update_config [("bogus", v)]).1.config = ctrl.config) :=
  ⟨rfl, rfl, rfl⟩

/-! ### C9 -/

/-- C9: on a connected session, the bytes returned by `stream_data` are
exactly the input bytes (the returned payload is the identical list, not
merely one of the same size), and the controller state is returned
unchanged. -/
theorem C9_stream_identity (ctrl : FPGAController) (data : List Nat)
    (h : ctrl.is_connected = true) :
    ctrl.stream_data data = Except.ok (ctrl, data) := by
  simp [FPGAController.stream_data, h]

/-- C9 (witness): the identity evaluated on a connected controller. -/
theorem C9_stream_identity_witness :
    (FPGAController.init.connect.1).is_connected = true ∧
    (FPGAController.init.connect.1).stream_data [7, 8, 9] =
      Except.ok (FPGAController.init.connect.1, [7, 8, 9]) :=
  ⟨rfl, C9_stream_identity (FPGAController.init.connect.1) [7, 8, 9] rfl⟩

/-! ### C4 -/

/-- C4 (counterexample): after 101 `read_metrics` pushes on a fresh
connected controller, the metrics history holds 101 entries — more than
the claimed capacity of 100; nothing is ever evicted. -/
theorem C4_counterexample :
    (readMetricsN (FPGAController.init.connect.1) 101).metrics_history.length
      = 101 ∧
    ¬ (readMetricsN (FPGAController.init.connect.1) 101).metrics_history.length
      ≤ 100 := by
  have h := readMetricsN_length (FPGAController.init.connect.1) 101
  have h0 : (FPGAController.init.connect.1).metrics_history.length = 0 := rfl
  rw [h0] at h
  exact ⟨h, by omega⟩

/-- C4 (amended): the metrics history is an unbounded list — after
pushing `n` samples its length has grown by exactly `n`, with no
eviction; the bounding to the most recent 100 samples happens only when
statistics are computed, where `takeLast 100` (Python `[-100:]`) yields
at most 100 entries and is a suffix of the history (the most recent
entries in insertion order). -/
theorem C4_history_unbounded (ctrl : FPGAController) (n : Nat) :
    (readMetricsN ctrl n).metrics_history.length =
      ctrl.metrics_history.length + n ∧
    (∀ xs : List PerformanceMetrics,
      (takeLast 100 xs).length ≤ 100 ∧ List.IsSuffix (takeLast 100 xs) xs) := by
  refine ⟨readMetricsN_length ctrl n, fun xs => ⟨?_, List.drop_suffix _ _⟩⟩
  simp only [takeLast, List.length_drop]
  omega

/-! ### C6 -/

/-- C6 (counterexample): `get_statistics` on the empty metrics history
returns the empty result (Python `{}`), not an `InsufficientDataError`
(or any error at all), refuting the claim that every statistics
computation over the sample history fails on empty input. -/
theorem C6_counterexample :
    FPGAController.init.metrics_history = [] ∧
    FPGAController.init.get_statistics = Except.ok none :=
  ⟨rfl, rfl⟩

/-- C6 (amended): on an empty history `get_statistics` returns an empty
result without raising; the stdlib statistics functions that the
profiler delegates to do fail on empty input (`statistics.mean` and
`statistics.median` with `StatisticsError`, builtin `max`/`min` with
`ValueError`), and `statistics.stdev` fails with `StatisticsError`
whenever there are fewer than 2 values. -/
theorem C6_insufficient_data (xs : List ℚ) (h : xs.length < 2) :
    FPGAController.init.get_statistics = Except.ok none ∧
    pymean [] = Except.error
      (PyError.statisticsError "mean requires at least one data point") ∧
    pymedian [] = Except.error
      (PyError.statisticsError "no median for empty data") ∧
    pymax [] = Except.error
      (PyError.valueError "max() arg is an empty sequence") ∧
    pymin [] = Except.error
      (PyError.valueError "min() arg is an empty sequence") ∧
    pystdevSq xs = Except.error
      (PyError.statisticsError "stdev requires at least two data points") := by
  refine ⟨rfl, rfl, rfl, rfl, rfl, ?_⟩
  simp [pystdevSq, h]

/-- C6 (witness): the amended statement evaluated at a one-element data
list (fewer than 2 values). -/
theorem C6_insufficient_data_witness :
    ([42] : List ℚ).length < 2 ∧
    pystdevSq [42] = Except.error
      (PyError.statisticsError "stdev requires at least two data points") :=
  ⟨by decide, (C6_insufficient_data [42] (by decide)).2.2.2.2.2⟩

/-! ### C10 -/

/-- C10: every metric synthesized by `read_metrics` satisfies the bounds
determined by the current configuration — with `base = 50 +
(8 − active_cores) × 10`, the latency lies in `[base − 5, base + 15]`,
the throughput lies in `[active_cores × 250 − 50, active_cores × 250 + 50]`,
the jitter lies in `[0, 5]`, and the three subsystem statuses are all
`Active` — provided each `random.uniform(a, b)` draw lies in `[a, b]`. -/
theorem C10_metrics_bounds (ctrl : FPGAController) (ts r1 r2 r3 : ℚ)
    (h1l : -5 ≤ r1) (h1u : r1 ≤ 15) (h2l : -50 ≤ r2) (h2u : r2 ≤ 50)
    (h3l : 0 ≤ r3) (h3u : r3 ≤ 5) :
    (50 + (8 - (ctrl.config.active_cores : ℚ)) * 10) - 5 ≤
        ((ctrl.read_metrics ts r1 r2 r3).2).latency_us ∧
    ((ctrl.read_metrics ts r1 r2 r3).2).latency_us ≤
        (50 + (8 - (ctrl.config.active_cores : ℚ)) * 10) + 15 ∧
    (ctrl.config.active_cores : ℚ) * 250 - 50 ≤
        ((ctrl.read_metrics ts r1 r2 r3).2).throughput_mbps ∧
    ((ctrl.read_metrics ts r1 r2 r3).2).throughput_mbps ≤
        (ctrl.config.active_cores : ℚ) * 250 + 50 ∧
    0 ≤ ((ctrl.read_metrics ts r1 r2 r3).2).jitter_us ∧
    ((ctrl.read_metrics ts r1 r2 r3).2).jitter_us ≤ 5 ∧
    ((ctrl.read_metrics ts r1 r2 r3).2).pcie_status = ComponentStatus.active ∧
    ((ctrl.read_metrics ts r1 r2 r3).2).dma_status = ComponentStatus.active ∧
    ((ctrl.read_metrics ts r1 r2 r3).2).compute_status = ComponentStatus.active := by
  have hl : ((ctrl.read_metrics ts r1 r2 r3).2).latency_us =
      50 + (8 - (ctrl.config.active_cores : ℚ)) * 10 + r1 := rfl
  have hth : ((ctrl.read_metrics ts r1 r2 r3).2).throughput_mbps =
      (ctrl.config.active_cores : ℚ) * 250 + r2 := rfl
  have hj : ((ctrl.read_metrics ts r1 r2 r3).2).jitter_us = r3 := rfl
  refine ⟨?_, ?_, ?_, ?_, ?_, ?_, rfl, rfl, rfl⟩
  · rw [hl]; linarith
  · rw [hl]; linarith
  · rw [hth]; linarith
  · rw [hth]; linarith
  · rw [hj]; exact h3l
  · rw [hj]; exact h3u

/-- C10 (witness): the bounds evaluated in the initial configuration
(`active_cores = 4`, so `base = 90`) with all three draws at 0. -/
theorem C10_metrics_bounds_witness :
    0 ≤ ((FPGAController.init.read_metrics 0 0 0 0).2).jitter_us ∧
    ((FPGAController.init.read_metrics 0 0 0 0).2).pcie_status =
      ComponentStatus.active ∧
    (50 + (8 - (FPGAController.init.config.active_cores : ℚ)) * 10) - 5 ≤
      ((FPGAController.init.read_metrics 0 0 0 0).2).latency_us := by
  obtain ⟨b1, b2, b3, b4, b5, b6, b7, b8, b9⟩ :=
    C10_metrics_bounds FPGAController.init 0 0 0 0 (by norm_num) (by norm_num)
      (by norm_num) (by norm_num) le_rfl (by norm_num)
  exact ⟨b5, b7, b1⟩

/-! ### C7 -/

/-- C7: the nearest-rank percentile computed by the source pattern
`sorted(xs)[int(len(xs) * p/100)]` equals, for every nonempty input and
every p in (0,100), the spec's formula: the element of the
ascending-sorted sequence at index `floor(p/100 × length)` clamped to
`[0, length − 1]` (the clamp is in fact vacuous there, so the unclamped
source index is already the clamped one and is always in range); `p95`
and `p99` are the instances `p = 95` and `p = 99`. -/
theorem C7_percentile_nearest_rank (xs : List ℚ) (p : ℚ)
    (hne : xs ≠ []) (hp0 : 0 < p) (hp100 : p < 100) :
    nearestRank xs (p / 100) = percentileSpec p xs ∧
    (pyInt ((xs.length : ℚ) * (p / 100))).toNat < xs.length := by
  have hn : 0 < xs.length := List.length_pos.mpr hne
  have hx0 : (0 : ℚ) ≤ (xs.length : ℚ) * (p / 100) := by positivity
  have hfrac : p / 100 < 1 := by
    rw [div_lt_one (by norm_num : (0 : ℚ) < 100)]
    exact hp100
  have hxn : (xs.length : ℚ) * (p / 100) < (xs.length : ℚ) := by
    calc (xs.length : ℚ) * (p / 100) < (xs.length : ℚ) * 1 :=
          mul_lt_mul_of_pos_left hfrac (by exact_mod_cast hn)
      _ = (xs.length : ℚ) := mul_one _
  have hpy : pyInt ((xs.length : ℚ) * (p / 100)) =
      ⌊(xs.length : ℚ) * (p / 100)⌋ := pyInt_eq_floor _ hx0
  have hf0 : 0 ≤ ⌊(xs.length : ℚ) * (p / 100)⌋ := Int.floor_nonneg.mpr hx0
  have hfn : ⌊(xs.length : ℚ) * (p / 100)⌋ < (xs.length : ℤ) := by
    rw [Int.floor_lt]
    exact_mod_cast hxn
  have hcomm : p / 100 * (xs.length : ℚ) = (xs.length : ℚ) * (p / 100) :=
    mul_comm _ _
  constructor
  · unfold nearestRank percentileSpec
    congr 1
    rw [hpy, hcomm, max_eq_left hf0, min_eq_left (by omega)]
  · rw [hpy]
    omega

/-- C7 (witness): the equality evaluated at `xs = [1, 2, 3]`, `p = 50`. -/
theorem C7_percentile_nearest_rank_witness :
    ([1, 2, 3] : List ℚ) ≠ [] ∧ (0 : ℚ) < 50 ∧ (50 : ℚ) < 100 ∧
    nearestRank [1, 2, 3] (50 / 100) = percentileSpec 50 [1, 2, 3] :=
  ⟨by simp, by norm_num, by norm_num,
   (C7_percentile_nearest_rank [1, 2, 3] 50 (by simp) (by norm_num)
     (by norm_num)).1⟩

/-! ### C8 -/

/-- Bind of a successful `Except` computation reduces to its
continuation. -/
theorem except_bind_ok {α β : Type} (a : α) (f : α → Except PyError β) :
    (Except.ok a : Except PyError α) >>= f = f a := rfl

/-- The last-100 slice of a nonempty history is nonempty. -/
theorem takeLast_ne_nil {α : Type} (xs : List α) (hne : xs ≠ []) :
    takeLast 100 xs ≠ [] := by
  have hn : 0 < xs.length := List.length_pos.mpr hne
  simp only [takeLast, ne_eq, List.drop_eq_nil_iff]
  omega

/-- C8: `speedup(mean_latency, baseline)` is `baseline / mean_latency`
and fails with `ZeroDivisionError` exactly when the mean latency is
zero; accordingly, on a nonempty history, `get_statistics` (whose
`speedup_vs_cpu` entry instantiates the baseline at 150 µs) fails with
`ZeroDivisionError` when the mean latency is zero and otherwise reports
`speedup_vs_cpu = 150 / mean`. -/
theorem C8_speedup_division (ctrl : FPGAController)
    (hne : ctrl.metrics_history ≠ []) :
    (∀ mean_latency baseline : ℚ,
      speedup mean_latency baseline =
        if mean_latency = 0 then Except.error PyError.zeroDivision
        else Except.ok (baseline / mean_latency)) ∧
    (meanLatency ctrl = 0 →
      ctrl.get_statistics = Except.error PyError.zeroDivision) ∧
    (meanLatency ctrl ≠ 0 →
      ∃ s : Stats, ctrl.get_statistics = Except.ok (some s) ∧
        s.speedup_vs_cpu = 150 / meanLatency ctrl) := by
  simp only [meanLatency]
  set lat := (takeLast 100 ctrl.metrics_history).map (fun m => m.latency_us)
    with hlatdef
  set jit := (takeLast 100 ctrl.metrics_history).map (fun m => m.jitter_us)
    with hjitdef
  have hrec : takeLast 100 ctrl.metrics_history ≠ [] := takeLast_ne_nil _ hne
  have hlat_ne : lat ≠ [] := by
    rw [hlatdef]
    simpa [List.map_eq_nil_iff] using hrec
  have hjit_ne : jit ≠ [] := by
    rw [hjitdef]
    simpa [List.map_eq_nil_iff] using hrec
  have hlp : 0 < lat.length := List.length_pos.mpr hlat_ne
  have hlen : ((lat.length : ℚ)) ≠ 0 := Nat.cast_ne_zero.mpr (by omega)
  obtain ⟨x, l, hxl⟩ := List.exists_cons_of_ne_nil hlat_ne
  obtain ⟨y, jl, hyl⟩ := List.exists_cons_of_ne_nil hjit_ne
  have hmax : pymax lat = Except.ok (l.foldl max x) := by rw [hxl]; rfl
  have hmin : pymin lat = Except.ok (l.foldl min x) := by rw [hxl]; rfl
  have hmaxj : pymax jit = Except.ok (jl.foldl max y) := by rw [hyl]; rfl
  have hmain : ctrl.get_statistics =
      if lat.sum / (lat.length : ℚ) = 0 then Except.error PyError.zeroDivision
      else Except.ok (some
        { avg_latency_us := lat.sum / (lat.length : ℚ),
          max_latency_us := l.foldl max x,
          min_latency_us := l.foldl min x,
          p99_latency_us := nearestRank lat (99 / 100),
          max_jitter_us := jl.foldl max y,
          speedup_vs_cpu := 150 / (lat.sum / (lat.length : ℚ)) }) := by
    unfold FPGAController.get_statistics
    rw [if_neg hne]
    simp only [← hlatdef, ← hjitdef, hmax, hmin, hmaxj, pydiv, except_bind_ok,
      if_neg hlen]
    by_cases h0 : lat.sum / (lat.length : ℚ) = 0
    · simp only [if_pos h0]
      rfl
    · simp only [if_neg h0]
      rfl
  refine ⟨fun mean_latency baseline => rfl, ?_, ?_⟩
  · intro h0
    rw [hmain, if_pos h0]
  · intro hne0
    rw [hmain, if_neg hne0]
    exact ⟨_, rfl, rfl⟩

/-- C8 (witness): a connected controller holding one metric whose
latency is exactly 0 (`active_cores = 4`, draw `r1 = −90`): its mean
latency is 0 and `get_statistics` fails with `ZeroDivisionError`. -/
theorem C8_speedup_division_witness :
    ((FPGAController.init.connect.1.read_metrics 0 (-90) 0 0).1).metrics_history
      ≠ [] ∧
    ((FPGAController.init.connect.1.read_metrics 0 (-90) 0 0).1).get_statistics
      = Except.error PyError.zeroDivision := by
  refine ⟨by simp [FPGAController.read_metrics], ?_⟩
  exact (C8_speedup_division
      ((FPGAController.init.connect.1.read_metrics 0 (-90) 0 0).1)
      (by simp [FPGAController.read_metrics])).2.1
    (by norm_num [meanLatency, takeLast, FPGAController.read_metrics,
      FPGAController.connect, FPGAController.init])
